import Mathlib

/-!
Verification development for a TradingView-alert → Binance USDⓈ-M futures
order bot (single source file `app.py`).

The webhook handler, its helpers (`round_step`, `get_symbol_info`) and
their environment (exchange metadata endpoint, order endpoint) are
shallowly embedded below.  Python floats are modelled by exact rationals
(ℚ); Python exceptions are modelled by explicit `Except` values and
control flow; the Flask response together with the outbound side effects
performed while handling one request (order calls made, `send_discord`
invocations) is returned as an explicit record `WebhookResult`, so that
claims about status codes, bodies, order calls and notification
cardinality are all statements about one total function `webhook`.
-/

/-- Model of Python's built-in `round` on an exact rational:
round-half-to-even (banker's rounding), as CPython uses for floats. -/
def pyRound (x : ℚ) : ℤ :=
  if x - x.floor < 1/2 then x.floor
  else if 1/2 < x - x.floor then x.floor + 1
  else if x.floor % 2 = 0 then x.floor else x.floor + 1

/-- Transliteration of `round_step` from app.py lines 49-50: `round(value / step) * step`. -/
def round_step (value step : ℚ) : ℚ :=
  (pyRound (value / step) : ℚ) * step

/-- Model of Python's `str.upper()` (ASCII case mapping suffices here). -/
def pyUpper (s : String) : String := ⟨s.data.map Char.toUpper⟩

/-- A JSON field value as seen by `float(...)`: either something that
converts to a number, or something whose conversion raises (non-numeric
string, list, …), carrying the exception message. -/
inductive FieldVal where
  | num (q : ℚ)
  | bad (emsg : String)
deriving DecidableEq

/-- Conversion `float(v)` applied to a present value. -/
def floatConvVal : FieldVal → Except String ℚ
  | .num q => .ok q
  | .bad m => .error m

/-- Conversion `float(data.get(key))`: `data.get` yields `None` when the key
is absent and `float(None)` raises `TypeError`. -/
def floatConv : Option FieldVal → Except String ℚ
  | none => .error "float() argument must be a string or a real number, not NoneType"
  | some v => floatConvVal v

/-- One entry of a symbol's `filters` list in the exchange metadata; each
field is absent (KeyError) or a value that `float` accepts or rejects. -/
structure MetaFilter where
  stepSizeField : Option FieldVal
  tickSizeField : Option FieldVal
deriving DecidableEq

/-- One entry of `exchange_info()['symbols']`. -/
structure SymbolEntry where
  symbol : String
  filters : List MetaFilter
deriving DecidableEq

/-- The keyword arguments of `client.new_order(...)` (app.py lines 86–91). -/
structure OrderReq where
  symbol : String
  side : String
  type : String
  quantity : ℚ
deriving DecidableEq

/-- Outcome of `client.new_order`: the exchange's order record (opaque),
a `ClientError` with machine code and message, or any other exception. -/
inductive OrderOutcome where
  | ok (order : String)
  | clientError (code : ℤ) (msg : String)
  | exn (msg : String)
deriving DecidableEq

/-- The external world one request sees: the behaviour of
`client.exchange_info()` (an exception or the `symbols` list) and of
`client.new_order` on each possible argument tuple. -/
structure Env where
  exchangeInfo : Except String (List SymbolEntry)
  newOrder : OrderReq → OrderOutcome

/-- A Discord embed (app.py lines 99–108). -/
structure Embed where
  title : String
  description : String
  color : ℕ
deriving DecidableEq

/-- One `send_discord(content, embeds)` invocation. -/
inductive Notif where
  | send (content : String) (embeds : List Embed)
deriving DecidableEq

/-- The JSON body of the handler's response. -/
inductive RespBody where
  | success (order : String)
  | error (msg : String)
deriving DecidableEq

/-- Everything one call of the handler produces: HTTP status, JSON body,
the `client.new_order` calls attempted, and the `send_discord` calls made. -/
structure WebhookResult where
  status : ℕ
  body : RespBody
  orders : List OrderReq
  notifs : List Notif
deriving DecidableEq

/-- The inbound alert as a JSON object (or `none` for a missing body);
each field is absent or a `FieldVal` / string. -/
structure Req where
  symbol : Option String
  side : Option String
  entry : Option FieldVal
  sl : Option FieldVal
  tp1 : Option FieldVal
  tp2 : Option FieldVal
deriving DecidableEq

/-- The body of `get_symbol_info`'s scan once the matching entry is
found: `float(s['filters'][1]['stepSize'])`, `float(s['filters'][0]['tickSize'])`
(app.py lines 41–42); each index/key/conversion step can raise. -/
def extractFilters (s : SymbolEntry) : Except String (ℚ × ℚ) :=
  match s.filters.get? 1 with
  | none => .error "IndexError: list index out of range"
  | some f1 =>
    match f1.stepSizeField with
    | none => .error "KeyError: stepSize"
    | some v =>
      match floatConvVal v with
      | .error m => .error m
      | .ok step_size =>
        match s.filters.get? 0 with
        | none => .error "IndexError: list index out of range"
        | some f0 =>
          match f0.tickSizeField with
          | none => .error "KeyError: tickSize"
          | some w =>
            match floatConvVal w with
            | .error m => .error m
            | .ok tick_size => .ok (step_size, tick_size)

/-- Transliteration of `get_symbol_info` (app.py lines 35-47): scan `exchange_info()['symbols']`
for the symbol, read the two filters; on any exception or a missing
symbol return the defaults `(0.001, 0.01)`. -/
def get_symbol_info (env : Env) (symbol : String) : ℚ × ℚ :=
  match env.exchangeInfo with
  | .error _ => (1/1000, 1/100)
  | .ok symbols =>
    match symbols.find? (fun s => s.symbol == symbol) with
    | none => (1/1000, 1/100)
    | some s =>
      match extractFilters s with
      | .error _ => (1/1000, 1/100)
      | .ok p => p

/-- The handler's `except Exception` clause (app.py lines 118–122):
log, notify `❌ 系統錯誤`, respond 500. -/
def generic500 (orders : List OrderReq) (m : String) : WebhookResult :=
  ⟨500, .error ("未知錯誤: " ++ m), orders,
    [.send ("❌ 系統錯誤: " ++ ("未知錯誤: " ++ m)) []]⟩

/-- The `/webhook` handler (app.py lines 53–122), transliterated: missing
body → 400; `float` of the four price fields (an exception lands in the
catch-all); side validation; precision lookup; sizing with the fixed
notional 10; non-positive quantity → 400; order submission with its
`ClientError` / generic exception clauses; Discord notification. -/
def webhook (env : Env) (req : Option Req) : WebhookResult :=
  match req with
  | none => ⟨400, .error "無 JSON 資料", [], []⟩
  | some data =>
    let symbol := pyUpper (data.symbol.getD "BTCUSDT")
    let side := pyUpper (data.side.getD "")
    match floatConv data.entry with
    | .error m => generic500 [] m
    | .ok entry =>
    match floatConv data.sl with
    | .error m => generic500 [] m
    | .ok sl =>
    match floatConv data.tp1 with
    | .error m => generic500 [] m
    | .ok tp1 =>
    match floatConv data.tp2 with
    | .error m => generic500 [] m
    | .ok tp2 =>
    if ¬ (side = "BUY" ∨ side = "SELL") then
      ⟨400, .error "side 必須是 BUY 或 SELL", [], []⟩
    else
      let step_size := (get_symbol_info env symbol).1
      let price := entry
      let notional : ℚ := 10
      if price = 0 then generic500 [] "float division by zero"
      else
        let quantity := round_step (notional / price) step_size
        if quantity ≤ 0 then ⟨400, .error "計算出的數量 <= 0", [], []⟩
        else
          let oreq : OrderReq := ⟨symbol, side, "MARKET", quantity⟩
          match env.newOrder oreq with
          | .ok order =>
            ⟨200, .success order, [oreq],
              [.send "" [⟨"🚀 自動開倉 - " ++ symbol,
                "方向: " ++ (if side = "BUY" then "多" else "空") ++
                "\n數量: " ++ toString quantity ++
                "\n進場: " ++ toString entry ++
                "\n止損: " ++ toString sl ++
                "\nTP1: " ++ toString tp1 ++
                "\nTP2: " ++ toString tp2,
                if side = "BUY" then 0x00FF00 else 0xFF0000⟩]]⟩
          | .clientError code msg =>
            ⟨400, .error ("Binance API 錯誤: " ++ msg ++ " (code: " ++ toString code ++ ")"),
              [oreq],
              [.send ("❌ 開倉失敗: " ++ ("Binance API 錯誤: " ++ msg ++ " (code: " ++ toString code ++ ")")) []]⟩
          | .exn m => generic500 [oreq] m

/-- An environment in which the exchange is unreachable: metadata lookup
raises, order submission raises a non-`ClientError` exception. -/
def envDown : Env := ⟨.error "ConnectionError", fun _ => .exn "no network"⟩

/-- An environment in which metadata lookup raises and the exchange
rejects every order with `ClientError` code −2019. -/
def envRejecting : Env :=
  ⟨.error "ConnectionError", fun _ => .clientError (-2019) "Margin is insufficient"⟩

/-- An alert with an invalid side and a missing `entry` field. -/
def reqLongNoEntry : Req := ⟨none, some "long", none, none, none, none⟩

/-- An alert with an invalid side and a non-numeric `entry` field. -/
def reqLongBadEntry : Req :=
  ⟨none, some "long", some (.bad "could not convert string to float: abc"),
    some (.num 90), some (.num 110), some (.num 120)⟩

/-- An alert with an invalid side but four well-formed price fields. -/
def reqHold : Req :=
  ⟨none, some "hold", some (.num 100), some (.num 90), some (.num 110), some (.num 120)⟩

/-- Metadata listing only ETHUSDT. -/
def otherSymbolList : List SymbolEntry :=
  [⟨"ETHUSDT", [⟨some (FieldVal.num (1/100)), some (FieldVal.num (1/100))⟩,
    ⟨some (FieldVal.num (1/100)), some (FieldVal.num (1/100))⟩]⟩]

/-- An environment whose metadata contains only another symbol. -/
def envOtherSymbol : Env := ⟨.ok otherSymbolList, fun _ => .exn "no network"⟩

/-- A metadata entry for BTCUSDT with an empty (hence malformed) filter list. -/
def malformedEntry : SymbolEntry := ⟨"BTCUSDT", []⟩

/-- An environment whose metadata entry for BTCUSDT has an empty (hence
malformed) filter list. -/
def envMalformedMeta : Env :=
  ⟨.ok [malformedEntry], fun _ => .exn "no network"⟩

theorem rat_floor_eq_floor (x : ℚ) : x.floor = ⌊x⌋ := by
  rw [Rat.floor_def', Rat.floor_def]

theorem pyRound_eq_floor (x : ℚ) (n : ℤ) (hn : ⌊x⌋ = n) (h : x - n < 1/2) :
    pyRound x = n := by
  unfold pyRound
  rw [rat_floor_eq_floor, hn, if_pos h]

theorem pyRound_intCast (n : ℤ) : pyRound (n : ℚ) = n := by
  refine pyRound_eq_floor _ n (Int.floor_intCast n) ?_
  simp

theorem pyRound_abs (x : ℚ) : |(pyRound x : ℚ) - x| ≤ 1/2 := by
  unfold pyRound
  rw [rat_floor_eq_floor]
  have h0 : ((⌊x⌋ : ℤ) : ℚ) ≤ x := Int.floor_le x
  have h1 : x < ((⌊x⌋ : ℤ) : ℚ) + 1 := Int.lt_floor_add_one x
  split_ifs with ha hb hc
  · rw [abs_le]; constructor <;> linarith
  · rw [abs_le]; push_cast; constructor <;> linarith
  · rw [abs_le]; constructor <;> linarith
  · rw [abs_le]; push_cast; constructor <;> linarith

theorem round_step_abs (v s : ℚ) (hs : 0 < s) : |round_step v s - v| ≤ s / 2 := by
  have h := pyRound_abs (v / s)
  have hrw : round_step v s - v = ((pyRound (v / s) : ℚ) - v / s) * s := by
    unfold round_step
    rw [sub_mul, div_mul_cancel₀ v (ne_of_gt hs)]
  rw [hrw, abs_mul, abs_of_pos hs]
  calc |(pyRound (v / s) : ℚ) - v / s| * s ≤ (1/2) * s :=
        mul_le_mul_of_nonneg_right h (le_of_lt hs)
    _ = s / 2 := by ring

theorem round_step_eval (v s r q : ℚ) (n : ℤ) (hr : v / s = r) (hn : ⌊r⌋ = n)
    (hf : r - n < 1/2) (hq : (n : ℚ) * s = q) : round_step v s = q := by
  unfold round_step
  rw [hr, pyRound_eq_floor r n hn hf, hq]

theorem round_step_100 : round_step (10/100) (1/1000) = 1/10 := by
  refine round_step_eval _ _ 100 _ 100 (by norm_num) ?_ (by norm_num) (by norm_num)
  rw [Int.floor_eq_iff]; norm_num

theorem round_step_3 : round_step (10/3) (1/1000) = 3333/1000 := by
  refine round_step_eval _ _ (10000/3) _ 3333 (by norm_num) ?_ (by norm_num) (by norm_num)
  rw [Int.floor_eq_iff]; norm_num

theorem round_step_huge : round_step (10/100000) (1/1000) = 0 := by
  refine round_step_eval _ _ (1/10) _ 0 (by norm_num) ?_ (by norm_num) (by norm_num)
  rw [Int.floor_eq_iff]; norm_num

theorem webhook_clientError_eq (env : Env) (sym? sd? : Option String)
    (eV sV t1V t2V : Option FieldVal) (entry sl tp1 tp2 : ℚ) (code : ℤ) (msg : String)
    (he : floatConv eV = .ok entry) (hsl : floatConv sV = .ok sl)
    (h1 : floatConv t1V = .ok tp1) (h2 : floatConv t2V = .ok tp2)
    (hside : pyUpper (sd?.getD "") = "BUY" ∨ pyUpper (sd?.getD "") = "SELL")
    (h0 : entry ≠ 0)
    (hq : 0 < round_step (10 / entry) (get_symbol_info env (pyUpper (sym?.getD "BTCUSDT"))).1)
    (hord : env.newOrder ⟨pyUpper (sym?.getD "BTCUSDT"), pyUpper (sd?.getD ""), "MARKET",
        round_step (10 / entry) (get_symbol_info env (pyUpper (sym?.getD "BTCUSDT"))).1⟩ =
      .clientError code msg) :
    webhook env (some ⟨sym?, sd?, eV, sV, t1V, t2V⟩) =
      ⟨400, .error ("Binance API 錯誤: " ++ msg ++ " (code: " ++ toString code ++ ")"),
        [⟨pyUpper (sym?.getD "BTCUSDT"), pyUpper (sd?.getD ""), "MARKET",
          round_step (10 / entry) (get_symbol_info env (pyUpper (sym?.getD "BTCUSDT"))).1⟩],
        [.send ("❌ 開倉失敗: " ++ ("Binance API 錯誤: " ++ msg ++ " (code: " ++ toString code ++ ")")) []]⟩ := by
  unfold webhook
  simp only [he, hsl, h1, h2]
  rw [if_neg (not_not_intro hside), if_neg h0, if_neg (not_le.mpr hq), hord]

theorem webhook_exn_eq (env : Env) (sym? sd? : Option String)
    (eV sV t1V t2V : Option FieldVal) (entry sl tp1 tp2 : ℚ) (m : String)
    (he : floatConv eV = .ok entry) (hsl : floatConv sV = .ok sl)
    (h1 : floatConv t1V = .ok tp1) (h2 : floatConv t2V = .ok tp2)
    (hside : pyUpper (sd?.getD "") = "BUY" ∨ pyUpper (sd?.getD "") = "SELL")
    (h0 : entry ≠ 0)
    (hq : 0 < round_step (10 / entry) (get_symbol_info env (pyUpper (sym?.getD "BTCUSDT"))).1)
    (hord : env.newOrder ⟨pyUpper (sym?.getD "BTCUSDT"), pyUpper (sd?.getD ""), "MARKET",
        round_step (10 / entry) (get_symbol_info env (pyUpper (sym?.getD "BTCUSDT"))).1⟩ =
      .exn m) :
    webhook env (some ⟨sym?, sd?, eV, sV, t1V, t2V⟩) =
      generic500 [⟨pyUpper (sym?.getD "BTCUSDT"), pyUpper (sd?.getD ""), "MARKET",
        round_step (10 / entry) (get_symbol_info env (pyUpper (sym?.getD "BTCUSDT"))).1⟩] m := by
  unfold webhook
  simp only [he, hsl, h1, h2]
  rw [if_neg (not_not_intro hside), if_neg h0, if_neg (not_le.mpr hq), hord]

theorem webhook_orders_eq (env : Env) (sym? sd? : Option String)
    (eV sV t1V t2V : Option FieldVal) (entry sl tp1 tp2 : ℚ)
    (he : floatConv eV = .ok entry) (hsl : floatConv sV = .ok sl)
    (h1 : floatConv t1V = .ok tp1) (h2 : floatConv t2V = .ok tp2)
    (hside : pyUpper (sd?.getD "") = "BUY" ∨ pyUpper (sd?.getD "") = "SELL")
    (h0 : entry ≠ 0)
    (hq : 0 < round_step (10 / entry) (get_symbol_info env (pyUpper (sym?.getD "BTCUSDT"))).1) :
    (webhook env (some ⟨sym?, sd?, eV, sV, t1V, t2V⟩)).orders =
      [⟨pyUpper (sym?.getD "BTCUSDT"), pyUpper (sd?.getD ""), "MARKET",
        round_step (10 / entry) (get_symbol_info env (pyUpper (sym?.getD "BTCUSDT"))).1⟩] := by
  unfold webhook
  simp only [he, hsl, h1, h2]
  rw [if_neg (not_not_intro hside), if_neg h0, if_neg (not_le.mpr hq)]
  rcases env.newOrder _ with o | ⟨c, m⟩ | m <;> simp [generic500]

/-- C1: for every entry price p > 0 and (resolved) step size, the quantity
submitted by the handler equals `round_step (10 / p) step` — the fixed
notional 10 divided by the entry price, rounded to the step; in
particular `size(entry=100, stepSize=0.001) = 0.1` and
`size(entry=3, stepSize=0.001) = 3.333`. -/
theorem claim1_order_sizing (env : Env) (sym? sd? : Option String)
    (eV sV t1V t2V : Option FieldVal) (entry sl tp1 tp2 : ℚ)
    (he : floatConv eV = .ok entry) (hsl : floatConv sV = .ok sl)
    (h1 : floatConv t1V = .ok tp1) (h2 : floatConv t2V = .ok tp2)
    (hside : pyUpper (sd?.getD "") = "BUY" ∨ pyUpper (sd?.getD "") = "SELL")
    (hentry : 0 < entry)
    (hq : 0 < round_step (10 / entry) (get_symbol_info env (pyUpper (sym?.getD "BTCUSDT"))).1) :
    (webhook env (some ⟨sym?, sd?, eV, sV, t1V, t2V⟩)).orders =
      [⟨pyUpper (sym?.getD "BTCUSDT"), pyUpper (sd?.getD ""), "MARKET",
        round_step (10 / entry) (get_symbol_info env (pyUpper (sym?.getD "BTCUSDT"))).1⟩] ∧
    round_step (10 / 100) (1/1000) = 1/10 ∧
    round_step (10 / 3) (1/1000) = 3333/1000 :=
  ⟨webhook_orders_eq env sym? sd? eV sV t1V t2V entry sl tp1 tp2 he hsl h1 h2 hside
      (ne_of_gt hentry) hq,
    round_step_100, round_step_3⟩

theorem claim1_order_sizing_witness :
    (webhook envDown (some ⟨none, some "buy", some (.num 100), some (.num 90),
        some (.num 110), some (.num 120)⟩)).orders =
      [⟨pyUpper ((none : Option String).getD "BTCUSDT"), pyUpper ((some "buy").getD ""),
        "MARKET", round_step (10 / 100)
          (get_symbol_info envDown (pyUpper ((none : Option String).getD "BTCUSDT"))).1⟩] ∧
    round_step (10 / 100) (1/1000) = 1/10 ∧
    round_step (10 / 3) (1/1000) = 3333/1000 :=
  claim1_order_sizing envDown none (some "buy") (some (.num 100)) (some (.num 90))
    (some (.num 110)) (some (.num 120)) 100 90 110 120 rfl rfl rfl rfl
    (Or.inl (by decide)) (by norm_num)
    (by rw [show get_symbol_info envDown (pyUpper ((none : Option String).getD "BTCUSDT")) =
          (1/1000, 1/100) from rfl, round_step_100]; norm_num)

/-- C2: `round_step value step` computes `round(value / step) * step`
with the platform rounding (here: round-half-to-even, as CPython);
for positive value and step the result is an exact integer multiple of
`step` and lies within `step / 2` of `value` (exact rationals, so ε = 0). -/
theorem claim2_round_step_contract (v s : ℚ) (_hv : 0 < v) (hs : 0 < s) :
    round_step v s = (pyRound (v / s) : ℚ) * s ∧
    (∃ k : ℤ, round_step v s = (k : ℚ) * s) ∧
    |round_step v s - v| ≤ s / 2 :=
  ⟨rfl, ⟨pyRound (v / s), rfl⟩, round_step_abs v s hs⟩

theorem claim2_round_step_contract_witness :
    round_step (10/3) (1/1000) = (pyRound ((10/3) / (1/1000)) : ℚ) * (1/1000) ∧
    (∃ k : ℤ, round_step (10/3) (1/1000) = (k : ℚ) * (1/1000)) ∧
    |round_step (10/3) (1/1000) - 10/3| ≤ (1/1000) / 2 :=
  claim2_round_step_contract (10/3) (1/1000) (by norm_num) (by norm_num)

/-- C3: precision resolution is total (a Lean function into ℚ × ℚ — no
exception channel) and defaulting: on a metadata-fetch exception, on a
symbol absent from the metadata, and on malformed metadata it returns
exactly (0.001, 0.01); and with a failing lookup the request pipeline
still proceeds to order submission using those defaults. -/
theorem claim3_precision_defaults :
    (∀ env symbol m, env.exchangeInfo = .error m →
      get_symbol_info env symbol = (1/1000, 1/100)) ∧
    (∀ env symbol l, env.exchangeInfo = .ok l →
      l.find? (fun s => s.symbol == symbol) = none →
      get_symbol_info env symbol = (1/1000, 1/100)) ∧
    (∀ env symbol l s m, env.exchangeInfo = .ok l →
      l.find? (fun s => s.symbol == symbol) = some s →
      extractFilters s = .error m →
      get_symbol_info env symbol = (1/1000, 1/100)) ∧
    (∀ env sym? sd? eV sV t1V t2V m, ∀ entry sl tp1 tp2 : ℚ,
      env.exchangeInfo = .error m →
      floatConv eV = .ok entry → floatConv sV = .ok sl →
      floatConv t1V = .ok tp1 → floatConv t2V = .ok tp2 →
      (pyUpper (sd?.getD "") = "BUY" ∨ pyUpper (sd?.getD "") = "SELL") →
      entry ≠ 0 → 0 < round_step (10 / entry) (1/1000) →
      (webhook env (some ⟨sym?, sd?, eV, sV, t1V, t2V⟩)).orders =
        [⟨pyUpper (sym?.getD "BTCUSDT"), pyUpper (sd?.getD ""), "MARKET",
          round_step (10 / entry) (1/1000)⟩]) := by
  refine ⟨?_, ?_, ?_, ?_⟩
  · intro env symbol m h
    simp only [get_symbol_info, h]
  · intro env symbol l hok hfind
    simp only [get_symbol_info, hok, hfind]
  · intro env symbol l s m hok hfind hext
    simp only [get_symbol_info, hok, hfind, hext]
  · intro env sym? sd? eV sV t1V t2V m entry sl tp1 tp2 hE he hsl h1 h2 hside h0 hq
    have hd : get_symbol_info env (pyUpper (sym?.getD "BTCUSDT")) = (1/1000, 1/100) := by
      simp only [get_symbol_info, hE]
    have hq' : 0 < round_step (10 / entry)
        (get_symbol_info env (pyUpper (sym?.getD "BTCUSDT"))).1 := by
      rw [hd]; exact hq
    have h := webhook_orders_eq env sym? sd? eV sV t1V t2V entry sl tp1 tp2
      he hsl h1 h2 hside h0 hq'
    rw [hd] at h
    exact h

theorem claim3_precision_defaults_witness :
    get_symbol_info envDown "BTCUSDT" = (1/1000, 1/100) ∧
    get_symbol_info envOtherSymbol "BTCUSDT" = (1/1000, 1/100) ∧
    get_symbol_info envMalformedMeta "BTCUSDT" = (1/1000, 1/100) ∧
    (webhook envDown (some ⟨none, some "buy", some (.num 100), some (.num 90),
        some (.num 110), some (.num 120)⟩)).orders =
      [⟨pyUpper ((none : Option String).getD "BTCUSDT"), pyUpper ((some "buy").getD ""),
        "MARKET", round_step (10 / 100) (1/1000)⟩] :=
  ⟨claim3_precision_defaults.1 envDown "BTCUSDT" "ConnectionError" rfl,
    claim3_precision_defaults.2.1 envOtherSymbol "BTCUSDT" otherSymbolList rfl (by decide),
    claim3_precision_defaults.2.2.1 envMalformedMeta "BTCUSDT" [malformedEntry] malformedEntry
      "IndexError: list index out of range" rfl (by decide) rfl,
    claim3_precision_defaults.2.2.2 envDown none (some "buy") (some (.num 100))
      (some (.num 90)) (some (.num 110)) (some (.num 120)) "ConnectionError"
      100 90 110 120 rfl rfl rfl rfl rfl (Or.inl (by decide)) (by norm_num)
      (by rw [round_step_100]; norm_num)⟩

/-- C4 counterexample: a request whose side ("long") is not BUY/SELL but
whose `entry` field is missing gets HTTP 500 through the catch-all (the
`float` conversion on line 65 runs before the side check on line 70),
not the claimed 400. -/
theorem claim4_counterexample :
    pyUpper ((reqLongNoEntry.side).getD "") ≠ "BUY" ∧
    pyUpper ((reqLongNoEntry.side).getD "") ≠ "SELL" ∧
    (webhook envDown (some reqLongNoEntry)).status = 500 ∧
    (webhook envDown (some reqLongNoEntry)).status ≠ 400 := by
  refine ⟨by decide, by decide, rfl, by decide⟩

/-- C4 amended: for every request whose side (after uppercasing) is not
BUY or SELL and whose four price fields all convert to floats, the
handler responds HTTP 400 with an error body, makes no outbound order
call, and sends no notification. -/
theorem claim4_side_validation_amended (env : Env) (sym? sd? : Option String)
    (eV sV t1V t2V : Option FieldVal) (entry sl tp1 tp2 : ℚ)
    (he : floatConv eV = .ok entry) (hsl : floatConv sV = .ok sl)
    (h1 : floatConv t1V = .ok tp1) (h2 : floatConv t2V = .ok tp2)
    (hbad : ¬ (pyUpper (sd?.getD "") = "BUY" ∨ pyUpper (sd?.getD "") = "SELL")) :
    webhook env (some ⟨sym?, sd?, eV, sV, t1V, t2V⟩) =
      ⟨400, .error "side 必須是 BUY 或 SELL", [], []⟩ := by
  unfold webhook
  simp only [he, hsl, h1, h2]
  rw [if_pos hbad]

theorem claim4_side_validation_amended_witness :
    webhook envDown (some ⟨none, some "hold", some (.num 100), some (.num 90),
        some (.num 110), some (.num 120)⟩) =
      ⟨400, .error "side 必須是 BUY 或 SELL", [], []⟩ :=
  claim4_side_validation_amended envDown none (some "hold") (some (.num 100))
    (some (.num 90)) (some (.num 110)) (some (.num 120)) 100 90 110 120
    rfl rfl rfl rfl (by decide)

/-- C5: for every request that reaches submission and whose exchange call
raises a ClientError with a code and message, the handler responds HTTP
400 whose error string contains both the exchange message and the code,
and exactly one failure notification is attempted. -/
theorem claim5_exchange_rejected (env : Env) (sym? sd? : Option String)
    (eV sV t1V t2V : Option FieldVal) (entry sl tp1 tp2 : ℚ) (code : ℤ) (msg : String)
    (he : floatConv eV = .ok entry) (hsl : floatConv sV = .ok sl)
    (h1 : floatConv t1V = .ok tp1) (h2 : floatConv t2V = .ok tp2)
    (hside : pyUpper (sd?.getD "") = "BUY" ∨ pyUpper (sd?.getD "") = "SELL")
    (h0 : entry ≠ 0)
    (hq : 0 < round_step (10 / entry) (get_symbol_info env (pyUpper (sym?.getD "BTCUSDT"))).1)
    (hord : env.newOrder ⟨pyUpper (sym?.getD "BTCUSDT"), pyUpper (sd?.getD ""), "MARKET",
        round_step (10 / entry) (get_symbol_info env (pyUpper (sym?.getD "BTCUSDT"))).1⟩ =
      .clientError code msg) :
    (webhook env (some ⟨sym?, sd?, eV, sV, t1V, t2V⟩)).status = 400 ∧
    (∃ emsg, (webhook env (some ⟨sym?, sd?, eV, sV, t1V, t2V⟩)).body = .error emsg ∧
      (∃ a b, emsg = a ++ msg ++ b) ∧ (∃ c d, emsg = c ++ toString code ++ d)) ∧
    (webhook env (some ⟨sym?, sd?, eV, sV, t1V, t2V⟩)).notifs =
      [.send ("❌ 開倉失敗: " ++ ("Binance API 錯誤: " ++ msg ++ " (code: " ++
        toString code ++ ")")) []] := by
  rw [webhook_clientError_eq env sym? sd? eV sV t1V t2V entry sl tp1 tp2 code msg
    he hsl h1 h2 hside h0 hq hord]
  refine ⟨rfl, ⟨_, rfl,
    ⟨"Binance API 錯誤: ", " (code: " ++ toString code ++ ")", by simp [String.append_assoc]⟩,
    ⟨"Binance API 錯誤: " ++ msg ++ " (code: ", ")", by simp [String.append_assoc]⟩⟩, rfl⟩

theorem claim5_exchange_rejected_witness :
    (webhook envRejecting (some ⟨none, some "buy", some (.num 100), some (.num 90),
        some (.num 110), some (.num 120)⟩)).status = 400 ∧
    (∃ emsg, (webhook envRejecting (some ⟨none, some "buy", some (.num 100), some (.num 90),
        some (.num 110), some (.num 120)⟩)).body = .error emsg ∧
      (∃ a b, emsg = a ++ "Margin is insufficient" ++ b) ∧
      (∃ c d, emsg = c ++ toString (-2019 : ℤ) ++ d)) ∧
    (webhook envRejecting (some ⟨none, some "buy", some (.num 100), some (.num 90),
        some (.num 110), some (.num 120)⟩)).notifs =
      [.send ("❌ 開倉失敗: " ++ ("Binance API 錯誤: " ++ "Margin is insufficient" ++
        " (code: " ++ toString (-2019 : ℤ) ++ ")")) []] :=
  claim5_exchange_rejected envRejecting none (some "buy") (some (.num 100))
    (some (.num 90)) (some (.num 110)) (some (.num 120)) 100 90 110 120
    (-2019) "Margin is insufficient" rfl rfl rfl rfl (Or.inl (by decide)) (by norm_num)
    (by rw [show get_symbol_info envRejecting (pyUpper ((none : Option String).getD "BTCUSDT")) =
        (1/1000, 1/100) from rfl, round_step_100]; norm_num)
    rfl

/-- C6: for every request whose computed quantity after rounding is ≤ 0,
the handler responds HTTP 400 before any order submission (no order
call), and sends no notification. -/
theorem claim6_sizing_failure (env : Env) (sym? sd? : Option String)
    (eV sV t1V t2V : Option FieldVal) (entry sl tp1 tp2 : ℚ)
    (he : floatConv eV = .ok entry) (hsl : floatConv sV = .ok sl)
    (h1 : floatConv t1V = .ok tp1) (h2 : floatConv t2V = .ok tp2)
    (hside : pyUpper (sd?.getD "") = "BUY" ∨ pyUpper (sd?.getD "") = "SELL")
    (h0 : entry ≠ 0)
    (hq : round_step (10 / entry) (get_symbol_info env (pyUpper (sym?.getD "BTCUSDT"))).1 ≤ 0) :
    webhook env (some ⟨sym?, sd?, eV, sV, t1V, t2V⟩) =
      ⟨400, .error "計算出的數量 <= 0", [], []⟩ := by
  unfold webhook
  simp only [he, hsl, h1, h2]
  rw [if_neg (not_not_intro hside), if_neg h0, if_pos hq]

theorem claim6_sizing_failure_witness :
    webhook envDown (some ⟨none, some "sell", some (.num 100000), some (.num 110000),
        some (.num 90000), some (.num 80000)⟩) =
      ⟨400, .error "計算出的數量 <= 0", [], []⟩ :=
  claim6_sizing_failure envDown none (some "sell") (some (.num 100000))
    (some (.num 110000)) (some (.num 90000)) (some (.num 80000))
    100000 110000 90000 80000 rfl rfl rfl rfl (Or.inr (by decide)) (by norm_num)
    (by rw [show get_symbol_info envDown (pyUpper ((none : Option String).getD "BTCUSDT")) =
        (1/1000, 1/100) from rfl, round_step_huge])

/-- C7: when converting any of the four price fields to float fails, the
failure surfaces through the catch-all exception clause: HTTP 500 with
the generic `未知錯誤` error body and one error notification — not a
dedicated 400 validation response — and no order call is made. -/
theorem claim7_parse_failure_500 (env : Env) (sym? sd? : Option String)
    (eV sV t1V t2V : Option FieldVal)
    (h : (∃ m, floatConv eV = .error m) ∨ (∃ m, floatConv sV = .error m) ∨
      (∃ m, floatConv t1V = .error m) ∨ (∃ m, floatConv t2V = .error m)) :
    (webhook env (some ⟨sym?, sd?, eV, sV, t1V, t2V⟩)).status = 500 ∧
    (∃ m, (webhook env (some ⟨sym?, sd?, eV, sV, t1V, t2V⟩)).body =
        .error ("未知錯誤: " ++ m) ∧
      (webhook env (some ⟨sym?, sd?, eV, sV, t1V, t2V⟩)).notifs =
        [.send ("❌ 系統錯誤: " ++ ("未知錯誤: " ++ m)) []]) ∧
    (webhook env (some ⟨sym?, sd?, eV, sV, t1V, t2V⟩)).orders = [] := by
  unfold webhook
  rcases hE : floatConv eV with m | entry
  · simp only [hE]
    exact ⟨rfl, ⟨m, rfl, rfl⟩, rfl⟩
  · rcases hS : floatConv sV with m | sl
    · simp only [hE, hS]
      exact ⟨rfl, ⟨m, rfl, rfl⟩, rfl⟩
    · rcases hT1 : floatConv t1V with m | tp1
      · simp only [hE, hS, hT1]
        exact ⟨rfl, ⟨m, rfl, rfl⟩, rfl⟩
      · rcases hT2 : floatConv t2V with m | tp2
        · simp only [hE, hS, hT1, hT2]
          exact ⟨rfl, ⟨m, rfl, rfl⟩, rfl⟩
        · exfalso
          rcases h with ⟨m, hm⟩ | ⟨m, hm⟩ | ⟨m, hm⟩ | ⟨m, hm⟩ <;> simp_all

theorem claim7_parse_failure_500_witness :
    (webhook envDown (some ⟨none, some "buy",
        some (.bad "could not convert string to float: oops"), some (.num 90),
        some (.num 110), some (.num 120)⟩)).status = 500 ∧
    (∃ m, (webhook envDown (some ⟨none, some "buy",
        some (.bad "could not convert string to float: oops"), some (.num 90),
        some (.num 110), some (.num 120)⟩)).body = .error ("未知錯誤: " ++ m) ∧
      (webhook envDown (some ⟨none, some "buy",
        some (.bad "could not convert string to float: oops"), some (.num 90),
        some (.num 110), some (.num 120)⟩)).notifs =
        [.send ("❌ 系統錯誤: " ++ ("未知錯誤: " ++ m)) []]) ∧
    (webhook envDown (some ⟨none, some "buy",
        some (.bad "could not convert string to float: oops"), some (.num 90),
        some (.num 110), some (.num 120)⟩)).orders = [] :=
  claim7_parse_failure_500 envDown none (some "buy")
    (some (.bad "could not convert string to float: oops")) (some (.num 90))
    (some (.num 110)) (some (.num 120))
    (Or.inl ⟨"could not convert string to float: oops", rfl⟩)

/-- C8 counterexample: a request with an invalid side (and well-formed
price fields) is answered 400 and handled with ZERO notifications, so
"exactly one notification per request, never zero" fails as stated. -/
theorem claim8_counterexample :
    (webhook envDown (some reqHold)).status = 400 ∧
    (webhook envDown (some reqHold)).notifs = [] := by
  refine ⟨rfl, rfl⟩

/-- C8 amended: every request is handled with AT MOST one notification,
and exactly one is sent whenever an order submission is attempted (the
success embed or a failure text) and whenever the handler answers 500;
requests rejected by validation or sizing send none. -/
theorem claim8_notification_cardinality_amended (env : Env) (req : Option Req) :
    (webhook env req).notifs.length ≤ 1 ∧
    ((webhook env req).orders ≠ [] → (webhook env req).notifs.length = 1) ∧
    ((webhook env req).status = 500 → (webhook env req).notifs.length = 1) := by
  unfold webhook
  rcases req with _ | data
  · simp
  · rcases hE : floatConv data.entry with m | entry
    · simp [hE, generic500]
    · rcases hS : floatConv data.sl with m | sl
      · simp [hE, hS, generic500]
      · rcases hT1 : floatConv data.tp1 with m | tp1
        · simp [hE, hS, hT1, generic500]
        · rcases hT2 : floatConv data.tp2 with m | tp2
          · simp [hE, hS, hT1, hT2, generic500]
          · simp only [hE, hS, hT1, hT2]
            by_cases hside : ¬ (pyUpper (data.side.getD "") = "BUY" ∨
                pyUpper (data.side.getD "") = "SELL")
            · rw [if_pos hside]
              simp
            · rw [if_neg hside]
              by_cases h0 : entry = 0
              · rw [if_pos h0]
                simp [generic500]
              · rw [if_neg h0]
                by_cases hq : round_step (10 / entry)
                    (get_symbol_info env (pyUpper (data.symbol.getD "BTCUSDT"))).1 ≤ 0
                · rw [if_pos hq]
                  simp
                · rw [if_neg hq]
                  rcases env.newOrder _ with o | ⟨c, m⟩ | m <;> simp [generic500]

theorem claim8_notification_cardinality_amended_witness :
    (webhook envDown (some ⟨none, some "buy", some (.num 100), some (.num 90),
        some (.num 110), some (.num 120)⟩)).notifs.length ≤ 1 ∧
    (webhook envDown (some ⟨none, some "buy", some (.num 100), some (.num 90),
        some (.num 110), some (.num 120)⟩)).notifs.length = 1 := by
  have hw := webhook_exn_eq envDown none (some "buy") (some (.num 100)) (some (.num 90))
    (some (.num 110)) (some (.num 120)) 100 90 110 120 "no network" rfl rfl rfl rfl
    (Or.inl (by decide)) (by norm_num)
    (by rw [show get_symbol_info envDown (pyUpper ((none : Option String).getD "BTCUSDT")) =
        (1/1000, 1/100) from rfl, round_step_100]; norm_num)
    rfl
  have h := claim8_notification_cardinality_amended envDown (some ⟨none, some "buy",
    some (.num 100), some (.num 90), some (.num 110), some (.num 120)⟩)
  exact ⟨h.1, h.2.1 (by rw [hw]; simp [generic500])⟩

/-- C9: a request with a valid BUY/SELL side whose entry parses to 0 is
not rejected with 400; the division `10 / 0` raises ZeroDivisionError,
the catch-all produces HTTP 500 plus one failure notification, and — the
handler being a total function into `WebhookResult` — no exception
escapes it. -/
theorem claim9_entry_zero_500 (env : Env) (sym? sd? : Option String)
    (eV sV t1V t2V : Option FieldVal) (sl tp1 tp2 : ℚ)
    (he : floatConv eV = .ok 0) (hsl : floatConv sV = .ok sl)
    (h1 : floatConv t1V = .ok tp1) (h2 : floatConv t2V = .ok tp2)
    (hside : pyUpper (sd?.getD "") = "BUY" ∨ pyUpper (sd?.getD "") = "SELL") :
    (webhook env (some ⟨sym?, sd?, eV, sV, t1V, t2V⟩)).status = 500 ∧
    (webhook env (some ⟨sym?, sd?, eV, sV, t1V, t2V⟩)).body =
      .error ("未知錯誤: " ++ "float division by zero") ∧
    (webhook env (some ⟨sym?, sd?, eV, sV, t1V, t2V⟩)).notifs =
      [.send ("❌ 系統錯誤: " ++ ("未知錯誤: " ++ "float division by zero")) []] ∧
    (webhook env (some ⟨sym?, sd?, eV, sV, t1V, t2V⟩)).orders = [] := by
  unfold webhook
  simp only [he, hsl, h1, h2]
  rw [if_neg (not_not_intro hside), if_pos trivial]
  exact ⟨rfl, rfl, rfl, rfl⟩

theorem claim9_entry_zero_500_witness :
    (webhook envDown (some ⟨none, some "buy", some (.num 0), some (.num 90),
        some (.num 110), some (.num 120)⟩)).status = 500 ∧
    (webhook envDown (some ⟨none, some "buy", some (.num 0), some (.num 90),
        some (.num 110), some (.num 120)⟩)).body =
      .error ("未知錯誤: " ++ "float division by zero") ∧
    (webhook envDown (some ⟨none, some "buy", some (.num 0), some (.num 90),
        some (.num 110), some (.num 120)⟩)).notifs =
      [.send ("❌ 系統錯誤: " ++ ("未知錯誤: " ++ "float division by zero")) []] ∧
    (webhook envDown (some ⟨none, some "buy", some (.num 0), some (.num 90),
        some (.num 110), some (.num 120)⟩)).orders = [] :=
  claim9_entry_zero_500 envDown none (some "buy") (some (.num 0)) (some (.num 90))
    (some (.num 110)) (some (.num 120)) 90 110 120 rfl rfl rfl rfl (Or.inl (by decide))

/-- C10: the handler converts the four price fields before validating the
side, so a request with side "long" and a non-numeric entry is answered
by the catch-all with HTTP 500, not the 400 side-validation error. -/
theorem claim10_parse_before_side_validation :
    pyUpper ((reqLongBadEntry.side).getD "") ≠ "BUY" ∧
    pyUpper ((reqLongBadEntry.side).getD "") ≠ "SELL" ∧
    (webhook envDown (some reqLongBadEntry)).status = 500 ∧
    (webhook envDown (some reqLongBadEntry)).body ≠
      .error "side 必須是 BUY 或 SELL" := by
  refine ⟨by decide, by decide, rfl, by decide⟩
